import Mathlib

/-!
Verification of the GymParrot pose/movement comparison engine.

This file gives a shallow embedding, in Lean, of the parts of the
repository the claims speak about:

* `src/services/ComparisonService.ts` — `comparePoses`,
  `compareMovementSequence`, `calculateSimilarityScore` and their private
  helpers;
* `src/utils/constants.ts` — `DIFFICULTY_THRESHOLDS`;
* `src/utils/validation.ts` — `normalizePoseData`;
* `src/services/MediaPipeService.ts` — `normalizeLandmark`,
  `validatePoseQuality`.

Modelling conventions.  JavaScript numbers are modelled as real numbers
(with finite inputs carried as rationals where the code only ever
receives finite data, keeping validity checks decidable).  A runtime
landmark field, which may be `undefined`, `NaN`, or an actual number, is
modelled by the inductive `JSVal`.  `NaN` propagation through arithmetic
is modelled with `Option ℝ` (`none` = `NaN`); the only places the code
can actually manufacture a `NaN` from well-typed inputs are `0/0` in the
temporal aggregator and arithmetic on `undefined`/`NaN` landmark fields,
and the embedding models exactly those.  Feedback and suggestion strings
produced by the comparison service interpolate floating-point values, so
they are modelled by inductive message types whose constructors stand
for the corresponding template strings.
-/

/-- A JavaScript value stored in a landmark field at runtime: absent
(`undefined`), `NaN`, or an actual finite number (modelled as a
rational). -/
inductive JSVal where
  | missing : JSVal
  | nan : JSVal
  | num : ℚ → JSVal
deriving DecidableEq

/-- Runtime shape of a `PoseLandmark` (src/types: `x,y,z : number`,
`visibility?: number`) as the `ComparisonService` defensively treats it:
each field may be absent or `NaN`.  An absent `visibility` field is
`JSVal.missing`. -/
structure JSLandmark where
  x : JSVal
  y : JSVal
  z : JSVal
  visibility : JSVal
deriving DecidableEq

instance : Inhabited JSLandmark :=
  ⟨⟨JSVal.missing, JSVal.missing, JSVal.missing, JSVal.missing⟩⟩

/-- JS `typeof v !== 'number'`: true exactly for `undefined` (`NaN` has
typeof `'number'`). -/
def notNumber : JSVal → Bool
  | JSVal.missing => true
  | JSVal.nan => false
  | JSVal.num _ => false

/-- JS global `isNaN(v)`: `NaN` is `NaN`, and `undefined` coerces to
`NaN`; an actual number is not. -/
def jsIsNaN : JSVal → Bool
  | JSVal.missing => true
  | JSVal.nan => true
  | JSVal.num _ => false

/-- The numeric payload of a field known to hold a number (0 otherwise;
only ever read behind a `notNumber`/`jsIsNaN` guard). -/
def numVal : JSVal → ℚ
  | JSVal.num q => q
  | _ => 0

/-- JS `landmark.visibility || 1`: `undefined`, `NaN` and `0` are all
falsy, so they yield the default `1`; any other number is returned
unchanged.  (ComparisonService.ts line 157.) -/
def visOr1 : JSVal → ℚ
  | JSVal.num q => if q = 0 then 1 else q
  | _ => 1

/-- A landmark field as a NaN-aware real: `undefined` and `NaN` both
behave as `NaN` in JS arithmetic, modelled as `none`. -/
def toJNum : JSVal → Option ℝ
  | JSVal.num q => some (q : ℝ)
  | _ => none

/-- NaN-propagating addition. -/
def jAdd (a b : Option ℝ) : Option ℝ :=
  a.bind (fun x => b.map (fun y => x + y))

/-- NaN-propagating subtraction. -/
def jSub (a b : Option ℝ) : Option ℝ :=
  a.bind (fun x => b.map (fun y => x - y))

/-- NaN-propagating multiplication. -/
def jMul (a b : Option ℝ) : Option ℝ :=
  a.bind (fun x => b.map (fun y => x * y))

/-- JS `Math.sqrt`: `NaN` for `NaN` or negative arguments, otherwise the
real square root. -/
noncomputable def jSqrt (a : Option ℝ) : Option ℝ :=
  a.bind (fun x => if x < 0 then none else some (Real.sqrt x))

/-- The Euclidean distance computed at ComparisonService.ts lines
162–165 (and again at lines 362–365 and 435–438):
`Math.sqrt(dx*dx + dy*dy + dz*dz)` on the raw landmark fields, with JS
`NaN` propagation. -/
noncomputable def landmarkDistance (l1 l2 : JSLandmark) : Option ℝ :=
  let dx := jSub (toJNum l1.x) (toJNum l2.x)
  let dy := jSub (toJNum l1.y) (toJNum l2.y)
  let dz := jSub (toJNum l1.z) (toJNum l2.z)
  jSqrt (jAdd (jAdd (jMul dx dx) (jMul dy dy)) (jMul dz dz))

/-- The landmark-data validation guard at ComparisonService.ts lines
148–154: skip the pair when any of the six coordinate fields fails
`typeof === 'number'` or is `NaN`. -/
def landmarkDataInvalid (l1 l2 : JSLandmark) : Bool :=
  notNumber l1.x || notNumber l1.y || notNumber l1.z ||
  notNumber l2.x || notNumber l2.y || notNumber l2.z ||
  jsIsNaN l1.x || jsIsNaN l1.y || jsIsNaN l1.z ||
  jsIsNaN l2.x || jsIsNaN l2.y || jsIsNaN l2.z

/-- The low-visibility guard at ComparisonService.ts line 157:
`(landmark1.visibility || 1) < 0.3 || (landmark2.visibility || 1) < 0.3`. -/
def skipLowVisibility (l1 l2 : JSLandmark) : Bool :=
  decide (visOr1 l1.visibility < (3/10 : ℚ)) ||
  decide (visOr1 l2.visibility < (3/10 : ℚ))

/-- Embeds `keyLandmarkIndices` from ComparisonService.ts lines 132–140. -/
def keyLandmarkIndices : List ℕ :=
  [0, 11, 12, 13, 14, 15, 16, 23, 24, 25, 26, 27, 28]

/-- One iteration of the scoring loop at ComparisonService.ts lines
143–176, threading the accumulator `(totalDistance, validComparisons)`.
The `match` on `pose[i]?` is the JS element access plus the
`!landmark1 || !landmark2` truthiness guard (an out-of-range or hole
access yields `undefined`, which is skipped); the loop only runs for
`i < min length`, so the `none` branch is unreachable there.  The
`none` branch of `landmarkDistance` is the `isNaN(distance)` guard at
lines 168–170. -/
noncomputable def simStep (pose1 pose2 : List JSLandmark) (i : ℕ)
    (acc : ℝ × ℚ) : ℝ × ℚ :=
  match pose1[i]?, pose2[i]? with
  | some l1, some l2 =>
    if landmarkDataInvalid l1 l2 then acc
    else if skipLowVisibility l1 l2 then acc
    else
      match landmarkDistance l1 l2 with
      | none => acc
      | some distance =>
        let weight : ℚ := if i ∈ keyLandmarkIndices then 2 else 1
        (acc.1 + distance * (weight : ℝ), acc.2 + weight)
  | _, _ => acc

/-- Embeds `ComparisonService.calculateSimilarityScore` (lines 121–188).  The
`!pose1 || !pose2` null guard is subsumed by the typed lists; the
empty-input guard, the loop over `0 ≤ i < min(len, len)`, the
`validComparisons === 0` floor, and the final
`Math.min(1, Math.max(0, 1 - averageDistance/0.5))` conversion are
translated directly. -/
noncomputable def calculateSimilarityScore
    (pose1 pose2 : List JSLandmark) : ℝ :=
  if pose1.length = 0 ∨ pose2.length = 0 then 0
  else
    let minLength := min pose1.length pose2.length
    let acc := (List.range minLength).foldl
      (fun a i => simStep pose1 pose2 i a) (0, 0)
    if acc.2 = 0 then 0
    else
      let averageDistance := acc.1 / ((acc.2 : ℚ) : ℝ)
      let similarity := max 0 (1 - averageDistance / (0.5 : ℝ))
      min 1 similarity

/-- Embeds `DifficultyLevel` from src/types: `"soft" | "medium" | "hard"`. -/
inductive DifficultyLevel where
  | soft : DifficultyLevel
  | medium : DifficultyLevel
  | hard : DifficultyLevel
deriving DecidableEq

/-- Embeds `DIFFICULTY_THRESHOLDS` from src/utils/constants.ts lines 3–7. -/
noncomputable def DIFFICULTY_THRESHOLDS : DifficultyLevel → ℝ
  | DifficultyLevel.soft => 0.7
  | DifficultyLevel.medium => 0.8
  | DifficultyLevel.hard => 0.9

/-- The four body-part names used by `analyzeBodyPartDifferences` and
`findMajorDifferences`. -/
inductive BodyPart where
  | head : BodyPart
  | arms : BodyPart
  | torso : BodyPart
  | legs : BodyPart
deriving DecidableEq

/-- Feedback strings produced by the comparison service.  Each
constructor stands for the corresponding string literal or template in
ComparisonService.ts; templates that interpolate the floating-point
score carry it as an argument. -/
inductive Feedback where
  | invalidPoseData : Feedback
  | missingPoseLandmarks : Feedback
  | errorComparingPoses : Feedback
  | greatJobPose : ℝ → Feedback
  | poseSimilarityGap : ℝ → ℝ → Feedback
  | partNeedsAdjustment : BodyPart → Feedback
  | invalidMovementData : Feedback
  | missingMovementData : Feedback
  | errorComparingMovements : Feedback
  | excellentMovement : ℝ → Feedback
  | movementSimilarityGap : ℝ → ℝ → Feedback
  | workOnStartingPosition : Feedback
  | focusOnMiddlePhase : Feedback
  | attentionToEndingPosition : Feedback

/-- Suggestion strings produced by the comparison service, one
constructor per string literal in ComparisonService.ts. -/
inductive Suggestion where
  | ensureValidLandmarkData : Suggestion
  | ensurePoseDetected : Suggestion
  | adjustArmPosition : Suggestion
  | checkLegPositioning : Suggestion
  | alignTorso : Suggestion
  | adjustHeadPosition : Suggestion
  | focusPrecisePositioning : Suggestion
  | generalPoseShapeFirst : Suggestion
  | keepPracticing : Suggestion
  | tryAgainBetterLighting : Suggestion
  | ensureValidSequenceData : Suggestion
  | completeFullSequence : Suggestion
  | tryCompleteFullSequence : Suggestion
  | matchTargetPace : Suggestion
  | smoothControlledMovements : Suggestion
  | consistentTiming : Suggestion
  | preciseTimingAndForm : Suggestion
  | tryMovementSlowly : Suggestion

/-- Embeds `ComparisonResult` from src/types, with message strings replaced by
the message inductives above. -/
structure ComparisonResult where
  isMatch : Bool
  score : ℝ
  feedback : List Feedback
  suggestions : List Suggestion

/-- The body-part index table shared by `analyzeBodyPartDifferences`
(ComparisonService.ts lines 345–350) and `findMajorDifferences`
(lines 418–423); the two tables are identical. -/
def bodyPartTable : List (BodyPart × List ℕ) :=
  [(BodyPart.head, [0, 1, 2, 3, 4, 5, 6, 7, 8, 9, 10]),
   (BodyPart.arms, [11, 12, 13, 14, 15, 16, 17, 18, 19, 20, 21, 22]),
   (BodyPart.torso, [11, 12, 23, 24]),
   (BodyPart.legs, [23, 24, 25, 26, 27, 28, 29, 30, 31, 32])]

/-- The per-part accumulation loop shared verbatim by
`analyzeBodyPartDifferences` (lines 356–369) and `findMajorDifferences`
(lines 429–442): over the part's indices below `min` length, gated by
`(visibility || 1) >= 0.5` on both landmarks, accumulate the raw
Euclidean distance (`partDistance`, with JS `NaN` propagation) and count
the comparisons. -/
noncomputable def partDistanceAccum (recorded current : List JSLandmark)
    (indices : List ℕ) : Option ℝ × ℕ :=
  indices.foldl
    (fun acc index =>
      if index < min recorded.length current.length then
        match recorded[index]?, current[index]? with
        | some l1, some l2 =>
          if (1/2 : ℚ) ≤ visOr1 l1.visibility ∧
             (1/2 : ℚ) ≤ visOr1 l2.visibility then
            (jAdd acc.1 (landmarkDistance l1 l2), acc.2 + 1)
          else acc
        | _, _ => acc
      else acc)
    (some 0, 0)

/-- The per-part significant-difference test at lines 371–376 / 444–447:
some comparison survived and `averageDistance > 0.15` (false when the
average is `NaN`). -/
noncomputable def partDifferenceSignificant (recorded current : List JSLandmark)
    (indices : List ℕ) : Bool :=
  let acc := partDistanceAccum recorded current indices
  if 0 < acc.2 then
    match acc.1 with
    | some d => if (0.15 : ℝ) < d / (acc.2 : ℝ) then true else false
    | none => false
  else false

/-- Embeds `ComparisonService.analyzeBodyPartDifferences` (lines 340–380): one
"needs adjustment" feedback line per body part whose gated mean distance
exceeds 0.15, in table order. -/
noncomputable def analyzeBodyPartDifferences
    (recorded current : List JSLandmark) : List Feedback :=
  bodyPartTable.foldl
    (fun feedback part =>
      if partDifferenceSignificant recorded current part.2 then
        feedback ++ [Feedback.partNeedsAdjustment part.1]
      else feedback)
    []

/-- Embeds `ComparisonService.findMajorDifferences` (lines 408–451): the same
per-part test, returned as four booleans. -/
noncomputable def findMajorDifferences (recorded current : List JSLandmark) :
    Bool × Bool × Bool × Bool :=
  (partDifferenceSignificant recorded current [0, 1, 2, 3, 4, 5, 6, 7, 8, 9, 10],
   partDifferenceSignificant recorded current [11, 12, 13, 14, 15, 16, 17, 18, 19, 20, 21, 22],
   partDifferenceSignificant recorded current [11, 12, 23, 24],
   partDifferenceSignificant recorded current [23, 24, 25, 26, 27, 28, 29, 30, 31, 32])

/-- Embeds `ComparisonService.generatePoseFeedback` (lines 238–257): the
headline line (positive when `score >= threshold`), then the body-part
lines. -/
noncomputable def generatePoseFeedback (recorded current : List JSLandmark)
    (score threshold : ℝ) : List Feedback :=
  (if threshold ≤ score then [Feedback.greatJobPose score]
   else [Feedback.poseSimilarityGap score threshold]) ++
  analyzeBodyPartDifferences recorded current

/-- Embeds `ComparisonService.generatePoseSuggestions` (lines 279–313): one
suggestion per flagged region (arms, legs, torso, head, in code order),
then the difficulty-specific line, falling back to a generic
encouragement when the list is still empty. -/
noncomputable def generatePoseSuggestions (recorded current : List JSLandmark)
    (difficulty : DifficultyLevel) : List Suggestion :=
  let differences := findMajorDifferences recorded current
  let suggestions :=
    (if differences.2.1 then [Suggestion.adjustArmPosition] else []) ++
    (if differences.2.2.2 then [Suggestion.checkLegPositioning] else []) ++
    (if differences.2.2.1 then [Suggestion.alignTorso] else []) ++
    (if differences.1 then [Suggestion.adjustHeadPosition] else []) ++
    (if difficulty = DifficultyLevel.hard then [Suggestion.focusPrecisePositioning]
     else if difficulty = DifficultyLevel.soft then [Suggestion.generalPoseShapeFirst]
     else [])
  if suggestions.length > 0 then suggestions else [Suggestion.keepPracticing]

/-- A `comparePoses` argument as it can arrive at runtime: the code
guards with `Array.isArray`, so a non-array value is representable. -/
inductive JSArg where
  | notArray : JSArg
  | arr : List JSLandmark → JSArg

/-- Embeds `ComparisonService.comparePoses` (lines 7–52).  The `Array.isArray`
guard, the emptiness guard, the score/threshold/verdict computation and
the feedback/suggestion generation are translated directly; nothing in
the embedded body can throw, so the `catch` branch (lines 44–51) is
unreachable. -/
noncomputable def comparePoses (recorded current : JSArg)
    (difficulty : DifficultyLevel) : ComparisonResult :=
  match recorded, current with
  | JSArg.arr recordedArr, JSArg.arr currentArr =>
    if recordedArr.length = 0 ∨ currentArr.length = 0 then
      { isMatch := false, score := 0,
        feedback := [Feedback.missingPoseLandmarks],
        suggestions := [Suggestion.ensurePoseDetected] }
    else
      let score := calculateSimilarityScore recordedArr currentArr
      let threshold := DIFFICULTY_THRESHOLDS difficulty
      let isMatch := if threshold ≤ score then true else false
      { isMatch := isMatch, score := score,
        feedback := generatePoseFeedback recordedArr currentArr score threshold,
        suggestions := generatePoseSuggestions recordedArr currentArr difficulty }
  | _, _ =>
    { isMatch := false, score := 0,
      feedback := [Feedback.invalidPoseData],
      suggestions := [Suggestion.ensureValidLandmarkData] }

/-- JS floating-point division as used at ComparisonService.ts line 221:
`0/0` is `NaN` (`none`).  A nonzero numerator over zero would be
`±Infinity`, but in `calculateTemporalScore` the denominator `n - 1` is
zero only when `n = 1`, in which case the numerator `i` is also zero, so
that case cannot arise. -/
noncomputable def jsDiv (a b : ℝ) : Option ℝ :=
  if b = 0 then none else some (a / b)

/-- Embeds `ComparisonService.calculateTemporalScore` (lines 212–236).  The
per-index Gaussian weight `exp(-(p*p)*2)` with
`p = (i/(length-1))*2 - 1` is computed with JS `NaN` propagation (the
lone source of `NaN` is `0/0` at `length = 1`); the two accumulators run
over the same index range, so they are folded over the score/weight
pairs; and the final `totalWeight > 0 ? weightedSum / totalWeight : 0`
is false for a `NaN` total, giving 0.  (A `NaN` `weightedSum` with a
non-`NaN` positive `totalWeight` cannot arise, both being driven by the
same weight list.) -/
noncomputable def calculateTemporalScore (frameScores : List ℝ) : ℝ :=
  if frameScores.length = 0 then 0
  else
    let weights : List (Option ℝ) :=
      (List.range frameScores.length).map (fun i =>
        (jsDiv (i : ℝ) ((frameScores.length : ℝ) - 1)).map (fun q =>
          let normalizedPosition := q * 2 - 1
          Real.exp (-(normalizedPosition * normalizedPosition) * 2)))
    let weightedSum : Option ℝ :=
      (frameScores.zip weights).foldl
        (fun acc p => acc.bind (fun a => p.2.map (fun w => a + p.1 * w)))
        (some 0)
    let totalWeight : Option ℝ :=
      weights.foldl
        (fun acc w => acc.bind (fun a => w.map (fun x => a + x)))
        (some 0)
    match weightedSum, totalWeight with
    | some ws, some tw => if 0 < tw then ws / tw else 0
    | _, _ => 0

/-- Embeds `TimestampedLandmarks` from src/types. -/
structure TimestampedLandmarks where
  timestamp : ℚ
  landmarks : List JSLandmark

instance : Inhabited TimestampedLandmarks := ⟨⟨0, []⟩⟩

/-- Embeds `ComparisonService.normalizeSequenceLength` (lines 192–210):
zero-order-hold resampling to `targetLength`, passing the sequence
through unchanged when it already has that length.  `Math.floor(i *
ratio)` is `⌊i * ratio⌋`; the clamped index is within range whenever the
sequence is nonempty (the only way the function is called), so the
`getD` default is unreachable then. -/
noncomputable def normalizeSequenceLength (sequence : List TimestampedLandmarks)
    (targetLength : ℕ) : List TimestampedLandmarks :=
  if sequence.length = targetLength then sequence
  else
    (List.range targetLength).map (fun i =>
      let sourceIndex : ℕ :=
        (⌊(i : ℝ) * ((sequence.length : ℝ) / (targetLength : ℝ))⌋).toNat
      let clampedIndex := min sourceIndex (sequence.length - 1)
      { timestamp := (sequence.getD clampedIndex default).timestamp,
        landmarks := (sequence.getD clampedIndex default).landmarks })

/-- Embeds `ComparisonService.analyzeMovementPhases` (lines 382–406).
`slice(a, b)` is `drop a` then `take (b - a)`; `Math.floor(length/3)`
and `Math.floor(2*length/3)` are the natural-number divisions (exact for
the float arithmetic at any realistic list length).  Note the middle
phase's sum is divided by `Math.floor(length / 3)` — the length of the
first slice — exactly as in the source. -/
noncomputable def analyzeMovementPhases (frameScores : List ℝ) : List Feedback :=
  if frameScores.length < 3 then []
  else
    let n := frameScores.length
    let beginningScore := ((frameScores.take (n / 3)).sum) / ((n / 3 : ℕ) : ℝ)
    let middleScore :=
      (((frameScores.drop (n / 3)).take (2 * n / 3 - n / 3)).sum) / ((n / 3 : ℕ) : ℝ)
    let endScore :=
      ((frameScores.drop (2 * n / 3)).sum) / ((n - 2 * n / 3 : ℕ) : ℝ)
    (if beginningScore < 0.6 then [Feedback.workOnStartingPosition] else []) ++
    (if middleScore < 0.6 then [Feedback.focusOnMiddlePhase] else []) ++
    (if endScore < 0.6 then [Feedback.attentionToEndingPosition] else [])

/-- Embeds `ComparisonService.generateMovementFeedback` (lines 259–277). -/
noncomputable def generateMovementFeedback (frameScores : List ℝ)
    (overallScore threshold : ℝ) : List Feedback :=
  (if threshold ≤ overallScore then [Feedback.excellentMovement overallScore]
   else [Feedback.movementSimilarityGap overallScore threshold]) ++
  analyzeMovementPhases frameScores

/-- Embeds `ComparisonService.generateMovementSuggestions` (lines 315–338). -/
noncomputable def generateMovementSuggestions
    (recorded current : List TimestampedLandmarks)
    (difficulty : DifficultyLevel) : List Suggestion :=
  (if (current.length : ℝ) < (recorded.length : ℝ) * 0.8 then
    [Suggestion.tryCompleteFullSequence]
   else if (recorded.length : ℝ) * 1.2 < (current.length : ℝ) then
    [Suggestion.matchTargetPace]
   else []) ++
  [Suggestion.smoothControlledMovements, Suggestion.consistentTiming] ++
  (if difficulty = DifficultyLevel.hard then [Suggestion.preciseTimingAndForm]
   else [])

/-- Embeds `ComparisonService.compareMovementSequence` (lines 54–119).  The
inputs are typed lists, so the `Array.isArray` guard is subsumed; the
emptiness guard, the mutual resampling, the frame-by-frame scoring over
the `min` of the resampled lengths, the temporal aggregation and the
verdict are translated directly; nothing in the embedded body can
throw, so the `catch` branch (lines 111–118) is unreachable. -/
noncomputable def compareMovementSequence
    (recorded current : List TimestampedLandmarks)
    (difficulty : DifficultyLevel) : ComparisonResult :=
  if recorded.length = 0 ∨ current.length = 0 then
    { isMatch := false, score := 0,
      feedback := [Feedback.missingMovementData],
      suggestions := [Suggestion.completeFullSequence] }
  else
    let normalizedRecorded := normalizeSequenceLength recorded current.length
    let normalizedCurrent := normalizeSequenceLength current recorded.length
    let minLength := min normalizedRecorded.length normalizedCurrent.length
    let frameScores := (List.range minLength).map (fun i =>
      calculateSimilarityScore
        (normalizedRecorded.getD i default).landmarks
        (normalizedCurrent.getD i default).landmarks)
    let overallScore := calculateTemporalScore frameScores
    let threshold := DIFFICULTY_THRESHOLDS difficulty
    let isMatch := if threshold ≤ overallScore then true else false
    { isMatch := isMatch, score := overallScore,
      feedback := generateMovementFeedback frameScores overallScore threshold,
      suggestions := generateMovementSuggestions recorded current difficulty }

/-- The declared TypeScript shape of a `PoseLandmark` (src/types lines
139–144): finite numeric `x`, `y`, `z` and an optional numeric
`visibility`, as handled by the validation utilities and the MediaPipe
adapter. -/
structure TSLandmark where
  x : ℚ
  y : ℚ
  z : ℚ
  visibility : Option ℚ
deriving DecidableEq

/-- Embeds `MediaPipeService.normalizeLandmark` (lines 182–192): clamp `x` and
`y` into [0,1], pass `z` through, clamp `visibility` when present and
leave it absent otherwise. -/
def normalizeLandmark (landmark : TSLandmark) : TSLandmark :=
  { x := max 0 (min 1 landmark.x),
    y := max 0 (min 1 landmark.y),
    z := landmark.z,
    visibility :=
      match landmark.visibility with
      | some v => some (max 0 (min 1 v))
      | none => none }

/-- Embeds `normalizePoseData` from src/utils/validation.ts (lines 97–106): the
same per-landmark transform, mapped over the list. -/
def normalizePoseData (landmarks : List TSLandmark) : List TSLandmark :=
  landmarks.map (fun landmark =>
    { x := max 0 (min 1 landmark.x),
      y := max 0 (min 1 landmark.y),
      z := landmark.z,
      visibility :=
        match landmark.visibility with
        | some v => some (max 0 (min 1 v))
        | none => none })

/-- The key indices checked by `MediaPipeService.validatePoseQuality`
(line 211): nose, shoulders, hips. -/
def qualityKeyIndices : List ℕ := [0, 11, 12, 23, 24]

/-- The per-landmark low-visibility test at MediaPipeService.ts line
216: `visibility === undefined || visibility < 0.5`. -/
def isLowVisibility (landmark : TSLandmark) : Bool :=
  match landmark.visibility with
  | none => true
  | some v => decide (v < (1/2 : ℚ))

/-- The `lowVisibilityLandmarks` filter at MediaPipeService.ts lines
212–218: among the key indices, those whose landmark exists (the JS
`landmark &&` truthiness guard — an out-of-range access is `undefined`,
hence excluded) and has low visibility. -/
def lowVisibilityLandmarks (landmarks : List TSLandmark) : List ℕ :=
  qualityKeyIndices.filter (fun index =>
    match landmarks[index]? with
    | some landmark => isLowVisibility landmark
    | none => false)

/-- Embeds `MediaPipeService.validatePoseQuality` (lines 195–238): empty input
is invalid outright; otherwise issues accumulate for a non-33 count, for
more than two low-visibility key landmarks, and for out-of-range
`x`/`y` coordinates. -/
def validatePoseQuality (landmarks : List TSLandmark) : Bool × List String :=
  if landmarks.length = 0 then (false, ["No landmarks detected"])
  else
    let countIssues : List String :=
      if landmarks.length ≠ 33 then
        ["Expected 33 landmarks, got " ++ toString landmarks.length]
      else []
    let visibilityIssues : List String :=
      if 2 < (lowVisibilityLandmarks landmarks).length then
        ["Too many key landmarks have low visibility"]
      else []
    let invalidCoords := landmarks.filter (fun landmark =>
      decide (landmark.x < 0) || decide (1 < landmark.x) ||
      decide (landmark.y < 0) || decide (1 < landmark.y))
    let coordIssues : List String :=
      if 0 < invalidCoords.length then
        ["Some landmarks have invalid coordinates"]
      else []
    let issues := countIssues ++ visibilityIssues ++ coordIssues
    (decide (issues.length = 0), issues)

/-! ### Helper lemmas -/

lemma bool_eq_of_iff {a b : Bool} (h : a = true ↔ b = true) : a = b := by
  cases a <;> cases b <;> simp_all

lemma jMul_jSub_self_comm (a b : Option ℝ) :
    jMul (jSub a b) (jSub a b) = jMul (jSub b a) (jSub b a) := by
  cases a <;> cases b <;> simp [jSub, jMul]
  ring

lemma landmarkDistance_comm (l1 l2 : JSLandmark) :
    landmarkDistance l1 l2 = landmarkDistance l2 l1 := by
  dsimp only [landmarkDistance]
  rw [jMul_jSub_self_comm (toJNum l1.x) (toJNum l2.x),
    jMul_jSub_self_comm (toJNum l1.y) (toJNum l2.y),
    jMul_jSub_self_comm (toJNum l1.z) (toJNum l2.z)]

lemma landmarkDataInvalid_comm (l1 l2 : JSLandmark) :
    landmarkDataInvalid l1 l2 = landmarkDataInvalid l2 l1 := by
  apply bool_eq_of_iff
  simp only [landmarkDataInvalid, Bool.or_eq_true]
  tauto

lemma skipLowVisibility_comm (l1 l2 : JSLandmark) :
    skipLowVisibility l1 l2 = skipLowVisibility l2 l1 := by
  simp only [skipLowVisibility]
  exact Bool.or_comm _ _

lemma simStep_comm (p1 p2 : List JSLandmark) (i : ℕ) (acc : ℝ × ℚ) :
    simStep p1 p2 i acc = simStep p2 p1 i acc := by
  unfold simStep
  cases h1 : p1[i]? <;> cases h2 : p2[i]? <;> simp only []
  case some.some l1 l2 =>
    rw [landmarkDataInvalid_comm, skipLowVisibility_comm, landmarkDistance_comm]

/-- C4 auxiliary: the scoring fold is symmetric in the two poses. -/
lemma foldl_simStep_comm (p1 p2 : List JSLandmark) (n : ℕ) (acc : ℝ × ℚ) :
    (List.range n).foldl (fun a i => simStep p1 p2 i a) acc =
    (List.range n).foldl (fun a i => simStep p2 p1 i a) acc := by
  exact List.foldl_ext _ _ acc (fun a i _ => simStep_comm p1 p2 i a)

/-- C4: `calculateSimilarityScore` is symmetric in its two arguments. -/
theorem calculateSimilarityScore_symm (pose1 pose2 : List JSLandmark) :
    calculateSimilarityScore pose1 pose2 = calculateSimilarityScore pose2 pose1 := by
  by_cases h : pose1.length = 0 ∨ pose2.length = 0
  · have h2 : pose2.length = 0 ∨ pose1.length = 0 := h.symm
    rw [calculateSimilarityScore, calculateSimilarityScore, if_pos h, if_pos h2]
  · have h2 : ¬(pose2.length = 0 ∨ pose1.length = 0) := fun hc => h hc.symm
    rw [calculateSimilarityScore, calculateSimilarityScore, if_neg h, if_neg h2]
    dsimp only
    rw [foldl_simStep_comm pose1 pose2, min_comm pose1.length pose2.length]

/-- C5: the similarity score always lies in [0, 1], whatever the inputs
(empty, mismatched lengths, malformed landmarks included). -/
theorem calculateSimilarityScore_bounds (pose1 pose2 : List JSLandmark) :
    0 ≤ calculateSimilarityScore pose1 pose2 ∧
    calculateSimilarityScore pose1 pose2 ≤ 1 := by
  unfold calculateSimilarityScore
  dsimp only
  split
  · norm_num
  · split
    · norm_num
    · constructor
      · exact le_min (by norm_num) (le_max_left 0 _)
      · exact min_le_left _ _

lemma jsval_num_of (v : JSVal) (h1 : notNumber v = false) (h2 : jsIsNaN v = false) :
    ∃ q, v = JSVal.num q := by
  cases v
  · exact absurd h1 (by simp [notNumber])
  · exact absurd h2 (by simp [jsIsNaN])
  · exact ⟨_, rfl⟩

lemma landmarkDistance_self_eq (l : JSLandmark) (a b c : ℚ)
    (hx : l.x = JSVal.num a) (hy : l.y = JSVal.num b) (hz : l.z = JSVal.num c) :
    landmarkDistance l l = some 0 := by
  simp [landmarkDistance, hx, hy, hz, toJNum, jSub, jMul, jAdd, jSqrt,
    Real.sqrt_zero]

/-- A self-compared landmark that passes both guards contributes zero
distance and its full weight. -/
lemma validSelf_fields (l : JSLandmark) (hv : landmarkDataInvalid l l = false) :
    (notNumber l.x = false ∧ jsIsNaN l.x = false) ∧
    (notNumber l.y = false ∧ jsIsNaN l.y = false) ∧
    (notNumber l.z = false ∧ jsIsNaN l.z = false) := by
  simp only [landmarkDataInvalid, Bool.or_eq_false_iff] at hv
  tauto

lemma simStep_self (L : List JSLandmark) (i : ℕ) (l : JSLandmark) (acc : ℝ × ℚ)
    (hl : L[i]? = some l)
    (hv : landmarkDataInvalid l l = false) (hs : skipLowVisibility l l = false) :
    simStep L L i acc =
      (acc.1, acc.2 + (if i ∈ keyLandmarkIndices then (2 : ℚ) else 1)) := by
  obtain ⟨⟨hx1, hx2⟩, ⟨hy1, hy2⟩, ⟨hz1, hz2⟩⟩ := validSelf_fields l hv
  obtain ⟨a, ha⟩ := jsval_num_of l.x hx1 hx2
  obtain ⟨b, hb⟩ := jsval_num_of l.y hy1 hy2
  obtain ⟨c, hc⟩ := jsval_num_of l.z hz1 hz2
  unfold simStep
  rw [hl]
  simp [hv, hs, landmarkDistance_self_eq l a b c ha hb hc]

/-- Folding the scoring loop over a self-compared list of everywhere-valid
landmarks accumulates zero distance and at least one unit of weight per
index. -/
lemma foldl_simStep_self (L : List JSLandmark)
    (h : ∀ l ∈ L, landmarkDataInvalid l l = false ∧ skipLowVisibility l l = false) :
    ∀ (k : ℕ), k ≤ L.length → ∀ acc : ℝ × ℚ,
      ((List.range k).foldl (fun a i => simStep L L i a) acc).1 = acc.1 ∧
      acc.2 + (k : ℚ) ≤ ((List.range k).foldl (fun a i => simStep L L i a) acc).2 := by
  intro k
  induction k with
  | zero => intro _ acc; simp
  | succ n ih =>
    intro hk acc
    have hn : n < L.length := Nat.lt_of_lt_of_le (Nat.lt_succ_self n) hk
    have hl : L[n]? = some (L[n]) := List.getElem?_eq_getElem hn
    have hmem : L[n] ∈ L := List.getElem_mem hn
    obtain ⟨hv, hs⟩ := h (L[n]) hmem
    obtain ⟨ih1, ih2⟩ := ih (Nat.le_of_succ_le hk) acc
    rw [List.range_succ, List.foldl_append, List.foldl_cons, List.foldl_nil]
    rw [simStep_self L n (L[n]) _ hl hv hs]
    constructor
    · exact ih1
    · have hw : (1 : ℚ) ≤ (if n ∈ keyLandmarkIndices then (2 : ℚ) else 1) := by
        split <;> norm_num
      push_cast
      linarith

/-- A nonempty list of landmarks that all pass both loop guards when
compared with themselves scores exactly 1 against itself. -/
lemma calculateSimilarityScore_self_valid (L : List JSLandmark) (hne : L.length ≠ 0)
    (h : ∀ l ∈ L, landmarkDataInvalid l l = false ∧ skipLowVisibility l l = false) :
    calculateSimilarityScore L L = 1 := by
  unfold calculateSimilarityScore
  rw [if_neg (by simp [hne])]
  dsimp only
  rw [min_self]
  obtain ⟨h1, h2⟩ := foldl_simStep_self L h L.length (le_refl _) (0, 0)
  have hone : (1 : ℚ) ≤ (L.length : ℚ) := by
    exact_mod_cast Nat.one_le_iff_ne_zero.mpr hne
  have hpos : (0 : ℚ) <
      ((List.range L.length).foldl (fun a i => simStep L L i a) (0, 0)).2 := by
    simp only [Prod.snd] at h2
    linarith
  rw [if_neg hpos.ne']
  rw [h1]
  norm_num

/-- C3: a 33-landmark set whose landmarks all carry actual (non-`NaN`)
numeric `x`, `y`, `z` and an actual visibility of at least 0.3 scores
exactly 1 against itself. -/
theorem claim3_identity (L : List JSLandmark)
    (hlen : L.length = 33)
    (hvalid : ∀ l ∈ L,
      notNumber l.x = false ∧ jsIsNaN l.x = false ∧
      notNumber l.y = false ∧ jsIsNaN l.y = false ∧
      notNumber l.z = false ∧ jsIsNaN l.z = false ∧
      l.visibility ≠ JSVal.missing ∧ l.visibility ≠ JSVal.nan ∧
      l.visibility ≠ JSVal.num 0 ∧ (3/10 : ℚ) ≤ visOr1 l.visibility) :
    calculateSimilarityScore L L = 1 := by
  apply calculateSimilarityScore_self_valid
  · rw [hlen]; norm_num
  · intro l hl
    obtain ⟨h1, h2, h3, h4, h5, h6, _, _, _, h10⟩ := hvalid l hl
    refine ⟨?_, ?_⟩
    · simp [landmarkDataInvalid, h1, h2, h3, h4, h5, h6]
    · simp only [skipLowVisibility, Bool.or_eq_false_iff,
        decide_eq_false_iff_not, not_lt]
      exact ⟨h10, h10⟩

/-- A concrete, everywhere-visible 33-landmark set. -/
def fullyVisiblePose : List JSLandmark :=
  List.replicate 33 ⟨JSVal.num 0, JSVal.num 0, JSVal.num 0, JSVal.num 1⟩

/-- Witness for C3: the identity property evaluated on a concrete
33-landmark set. -/
theorem claim3_identity_witness :
    calculateSimilarityScore fullyVisiblePose fullyVisiblePose = 1 :=
  claim3_identity fullyVisiblePose (by decide) (by
    intro l hl
    simp only [fullyVisiblePose] at hl
    rw [List.eq_of_mem_replicate hl]
    refine ⟨rfl, rfl, rfl, rfl, rfl, rfl, by decide, by decide, ?_, ?_⟩
    · intro hc
      simp only [JSVal.num.injEq] at hc
      norm_num at hc
    · show (3/10 : ℚ) ≤ visOr1 (JSVal.num 1)
      unfold visOr1
      norm_num)

/-- Modelled from the claim's words (spec section 4.2): the effective
visibility used by the skip rule, treating an absent (or `NaN`)
visibility as 1.0 and an explicit numeric visibility — including 0 — as
itself. -/
def specEffectiveVisibility : JSVal → ℚ
  | JSVal.num q => q
  | _ => 1

/-- Modelled from the claim's words: a pair is skipped iff either
landmark is missing a required numeric field or has a `NaN` numeric
field, or either landmark's effective visibility is strictly below
0.3 — so an explicit visibility of 0 is skipped. -/
def specSkipPair (l1 l2 : JSLandmark) : Bool :=
  notNumber l1.x || notNumber l1.y || notNumber l1.z ||
  notNumber l2.x || notNumber l2.y || notNumber l2.z ||
  jsIsNaN l1.x || jsIsNaN l1.y || jsIsNaN l1.z ||
  jsIsNaN l2.x || jsIsNaN l2.y || jsIsNaN l2.z ||
  decide (specEffectiveVisibility l1.visibility < (3/10 : ℚ)) ||
  decide (specEffectiveVisibility l2.visibility < (3/10 : ℚ))

/-- A landmark at the origin with an explicit visibility of 0. -/
def zeroVisibilityLandmark : JSLandmark :=
  ⟨JSVal.num 0, JSVal.num 0, JSVal.num 0, JSVal.num 0⟩

/-- C1 counterexample: by the claim, a pair whose explicit visibility is
0 is skipped, so comparing `[zeroVisibilityLandmark]` with itself would
leave zero surviving pairs and return the floor score 0; the code's
`visibility || 1` coalesces the falsy 0 to 1, counts the pair, and
returns 1. -/
theorem claim1_counterexample :
    specSkipPair zeroVisibilityLandmark zeroVisibilityLandmark = true ∧
    calculateSimilarityScore [zeroVisibilityLandmark] [zeroVisibilityLandmark] = 1 := by
  constructor
  · unfold specSkipPair specEffectiveVisibility zeroVisibilityLandmark
    norm_num
  · apply calculateSimilarityScore_self_valid
    · norm_num
    · intro l hl
      simp only [List.mem_singleton] at hl
      subst hl
      refine ⟨rfl, ?_⟩
      unfold skipLowVisibility visOr1 zeroVisibilityLandmark
      norm_num

/-- When all six coordinate fields carry actual numbers the computed
distance is an actual number too (never `NaN`). -/
lemma landmarkDistance_num (l1 l2 : JSLandmark) (a1 b1 c1 a2 b2 c2 : ℚ)
    (hx1 : l1.x = JSVal.num a1) (hy1 : l1.y = JSVal.num b1)
    (hz1 : l1.z = JSVal.num c1) (hx2 : l2.x = JSVal.num a2)
    (hy2 : l2.y = JSVal.num b2) (hz2 : l2.z = JSVal.num c2) :
    ∃ d : ℝ, landmarkDistance l1 l2 = some d := by
  have hs : (0 : ℝ) ≤
      ((a1 : ℝ) - a2) * ((a1 : ℝ) - a2) + ((b1 : ℝ) - b2) * ((b1 : ℝ) - b2) +
        ((c1 : ℝ) - c2) * ((c1 : ℝ) - c2) := by
    nlinarith [mul_self_nonneg ((a1 : ℝ) - a2), mul_self_nonneg ((b1 : ℝ) - b2),
      mul_self_nonneg ((c1 : ℝ) - c2)]
  simp [landmarkDistance, hx1, hy1, hz1, hx2, hy2, hz2, toJNum, jSub,
    jMul, jAdd, jSqrt]
  linarith

/-- C1 (amended): an index below both lengths is skipped — i.e. the loop
iteration leaves the `(totalDistance, validComparisons)` accumulator
unchanged — iff either landmark has a missing or `NaN` coordinate field,
or either landmark has an explicit nonzero numeric visibility below 0.3.
In particular a visibility of exactly 0 does not cause a skip (it is
falsy, so `visibility || 1` turns it into 1). -/
theorem claim1_amended_skip_rule (pose1 pose2 : List JSLandmark) (i : ℕ)
    (l1 l2 : JSLandmark) (h1 : pose1[i]? = some l1) (h2 : pose2[i]? = some l2) :
    (∀ acc : ℝ × ℚ, simStep pose1 pose2 i acc = acc) ↔
      ((l1.x = JSVal.missing ∨ l1.x = JSVal.nan ∨
        l1.y = JSVal.missing ∨ l1.y = JSVal.nan ∨
        l1.z = JSVal.missing ∨ l1.z = JSVal.nan) ∨
       (l2.x = JSVal.missing ∨ l2.x = JSVal.nan ∨
        l2.y = JSVal.missing ∨ l2.y = JSVal.nan ∨
        l2.z = JSVal.missing ∨ l2.z = JSVal.nan) ∨
       (∃ q, l1.visibility = JSVal.num q ∧ q ≠ 0 ∧ q < (3/10 : ℚ)) ∨
       (∃ q, l2.visibility = JSVal.num q ∧ q ≠ 0 ∧ q < (3/10 : ℚ))) := by
  constructor
  · intro hall
    by_contra hcond
    push_neg at hcond
    obtain ⟨hf1, hf2, hv1, hv2⟩ := hcond
    obtain ⟨hx1m, hx1n, hy1m, hy1n, hz1m, hz1n⟩ := hf1
    obtain ⟨hx2m, hx2n, hy2m, hy2n, hz2m, hz2n⟩ := hf2
    obtain ⟨a1, hxa1⟩ : ∃ q, l1.x = JSVal.num q := by
      cases hx : l1.x
      · exact absurd hx hx1m
      · exact absurd hx hx1n
      · exact ⟨_, rfl⟩
    obtain ⟨b1, hyb1⟩ : ∃ q, l1.y = JSVal.num q := by
      cases hy : l1.y
      · exact absurd hy hy1m
      · exact absurd hy hy1n
      · exact ⟨_, rfl⟩
    obtain ⟨c1, hzc1⟩ : ∃ q, l1.z = JSVal.num q := by
      cases hz : l1.z
      · exact absurd hz hz1m
      · exact absurd hz hz1n
      · exact ⟨_, rfl⟩
    obtain ⟨a2, hxa2⟩ : ∃ q, l2.x = JSVal.num q := by
      cases hx : l2.x
      · exact absurd hx hx2m
      · exact absurd hx hx2n
      · exact ⟨_, rfl⟩
    obtain ⟨b2, hyb2⟩ : ∃ q, l2.y = JSVal.num q := by
      cases hy : l2.y
      · exact absurd hy hy2m
      · exact absurd hy hy2n
      · exact ⟨_, rfl⟩
    obtain ⟨c2, hzc2⟩ : ∃ q, l2.z = JSVal.num q := by
      cases hz : l2.z
      · exact absurd hz hz2m
      · exact absurd hz hz2n
      · exact ⟨_, rfl⟩
    have hinv : landmarkDataInvalid l1 l2 = false := by
      simp [landmarkDataInvalid, hxa1, hyb1, hzc1, hxa2, hyb2, hzc2,
        notNumber, jsIsNaN]
    have hvis1 : (3/10 : ℚ) ≤ visOr1 l1.visibility := by
      cases hv : l1.visibility with
      | missing => norm_num [visOr1]
      | nan => norm_num [visOr1]
      | num q =>
        by_cases hq : q = 0
        · norm_num [visOr1, hq]
        · simp only [visOr1]
          rw [if_neg hq]
          exact hv1 q hv hq
    have hvis2 : (3/10 : ℚ) ≤ visOr1 l2.visibility := by
      cases hv : l2.visibility with
      | missing => norm_num [visOr1]
      | nan => norm_num [visOr1]
      | num q =>
        by_cases hq : q = 0
        · norm_num [visOr1, hq]
        · simp only [visOr1]
          rw [if_neg hq]
          exact hv2 q hv hq
    have hskip : skipLowVisibility l1 l2 = false := by
      simp only [skipLowVisibility, Bool.or_eq_false_iff,
        decide_eq_false_iff_not, not_lt]
      exact ⟨hvis1, hvis2⟩
    obtain ⟨d, hd⟩ := landmarkDistance_num l1 l2 a1 b1 c1 a2 b2 c2
      hxa1 hyb1 hzc1 hxa2 hyb2 hzc2
    have hstep := hall (0, 0)
    unfold simStep at hstep
    rw [h1, h2] at hstep
    simp only [hinv, hskip, hd] at hstep
    have hsnd : (0 : ℚ) + (if i ∈ keyLandmarkIndices then (2 : ℚ) else 1) = 0 :=
      congrArg Prod.snd hstep
    by_cases hk : i ∈ keyLandmarkIndices
    · rw [if_pos hk] at hsnd; norm_num at hsnd
    · rw [if_neg hk] at hsnd; norm_num at hsnd
  · intro hcond acc
    unfold simStep
    rw [h1, h2]
    rcases hcond with hf1 | hf2 | hv1 | hv2
    · have hinv : landmarkDataInvalid l1 l2 = true := by
        rcases hf1 with h | h | h | h | h | h <;>
          simp [landmarkDataInvalid, h, notNumber, jsIsNaN]
      simp [hinv]
    · have hinv : landmarkDataInvalid l1 l2 = true := by
        rcases hf2 with h | h | h | h | h | h <;>
          simp [landmarkDataInvalid, h, notNumber, jsIsNaN]
      simp [hinv]
    · obtain ⟨q, hq, hq0, hqlt⟩ := hv1
      have hskip : skipLowVisibility l1 l2 = true := by
        simp only [skipLowVisibility, Bool.or_eq_true, decide_eq_true_eq]
        left
        rw [hq]
        simp only [visOr1]
        rw [if_neg hq0]
        exact hqlt
      by_cases hinv : landmarkDataInvalid l1 l2 <;> simp [hinv, hskip]
    · obtain ⟨q, hq, hq0, hqlt⟩ := hv2
      have hskip : skipLowVisibility l1 l2 = true := by
        simp only [skipLowVisibility, Bool.or_eq_true, decide_eq_true_eq]
        right
        rw [hq]
        simp only [visOr1]
        rw [if_neg hq0]
        exact hqlt
      by_cases hinv : landmarkDataInvalid l1 l2 <;> simp [hinv, hskip]

/-- A landmark whose `x` field is absent. -/
def missingFieldLandmark : JSLandmark :=
  ⟨JSVal.missing, JSVal.num 0, JSVal.num 0, JSVal.num 1⟩

/-- Witness for the amended C1: a pair with a missing `x` field is
skipped — the loop iteration leaves the accumulator unchanged. -/
theorem claim1_amended_witness :
    simStep [missingFieldLandmark] [missingFieldLandmark] 0 ((0 : ℝ), (0 : ℚ)) =
      ((0 : ℝ), (0 : ℚ)) :=
  (claim1_amended_skip_rule [missingFieldLandmark] [missingFieldLandmark] 0
    missingFieldLandmark missingFieldLandmark rfl rfl).mpr
    (Or.inl (Or.inl rfl)) ((0 : ℝ), (0 : ℚ))

/-- The temporal aggregator collapses on single-frame inputs: the lone
weight is built from `0/0`, a `NaN`, which poisons `totalWeight`, and
the `totalWeight > 0` test on `NaN` is false, so the result is 0. -/
lemma calculateTemporalScore_single (s : ℝ) : calculateTemporalScore [s] = 0 := by
  unfold calculateTemporalScore
  rw [if_neg (by norm_num)]
  dsimp only
  simp [jsDiv, List.range_succ]

/-- C2: contrary to the claim, there is no `n = 1` special case in the
code.  Aggregating any one-element frame-score list yields 0 (not the
frame's own score), and comparing any two one-frame sequences therefore
scores 0 and never matches, at every difficulty. -/
theorem claim2_single_frame_collapse :
    (∀ s : ℝ, calculateTemporalScore [s] = 0) ∧
    (∀ (f1 f2 : TimestampedLandmarks) (d : DifficultyLevel),
      (compareMovementSequence [f1] [f2] d).score = 0 ∧
      (compareMovementSequence [f1] [f2] d).isMatch = false) := by
  refine ⟨calculateTemporalScore_single, ?_⟩
  intro f1 f2 d
  unfold compareMovementSequence
  rw [if_neg (by norm_num)]
  have hn1 : normalizeSequenceLength [f1] ([f2].length) = [f1] := by
    unfold normalizeSequenceLength
    rw [if_pos (show ([f1] : List TimestampedLandmarks).length = [f2].length from rfl)]
  have hn2 : normalizeSequenceLength [f2] ([f1].length) = [f2] := by
    unfold normalizeSequenceLength
    rw [if_pos (show ([f2] : List TimestampedLandmarks).length = [f1].length from rfl)]
  dsimp only
  rw [hn1, hn2]
  constructor
  · simp [List.range_succ, List.getD, calculateTemporalScore_single]
  · cases d <;>
      simp [List.range_succ, List.getD, calculateTemporalScore_single,
        DIFFICULTY_THRESHOLDS] <;>
      norm_num

/-- C6: with both inputs held fixed, the match verdict is antitone in
difficulty — a hard match implies a medium match, which implies a soft
match (`false ≤ true` in the `Bool` order). -/
theorem claim6_verdict_antitone (recorded current : JSArg) :
    (comparePoses recorded current DifficultyLevel.hard).isMatch ≤
      (comparePoses recorded current DifficultyLevel.medium).isMatch ∧
    (comparePoses recorded current DifficultyLevel.medium).isMatch ≤
      (comparePoses recorded current DifficultyLevel.soft).isMatch := by
  cases recorded with
  | notArray => simp [comparePoses]
  | arr recordedArr =>
    cases current with
    | notArray => simp [comparePoses]
    | arr currentArr =>
      by_cases h : recordedArr.length = 0 ∨ currentArr.length = 0
      · simp only [comparePoses, if_pos h]
        simp
      · simp only [comparePoses, if_neg h, DIFFICULTY_THRESHOLDS]
        constructor
        · split_ifs with h1 h2
          · exact le_refl _
          · exact absurd (by linarith : (0.8 : ℝ) ≤
              calculateSimilarityScore recordedArr currentArr) h2
          · exact Bool.false_le _
          · exact le_refl _
        · split_ifs with h1 h2
          · exact le_refl _
          · exact absurd (by linarith : (0.7 : ℝ) ≤
              calculateSimilarityScore recordedArr currentArr) h2
          · exact Bool.false_le _
          · exact le_refl _

/-- C7: a non-array argument yields the fixed invalid-data result, and
an empty landmark list on either side yields the fixed missing-landmarks
result; no scoring happens in either case. -/
theorem claim7_input_guards :
    (∀ (current : JSArg) (d : DifficultyLevel),
      comparePoses JSArg.notArray current d =
        { isMatch := false, score := 0,
          feedback := [Feedback.invalidPoseData],
          suggestions := [Suggestion.ensureValidLandmarkData] }) ∧
    (∀ (recorded : List JSLandmark) (d : DifficultyLevel),
      comparePoses (JSArg.arr recorded) JSArg.notArray d =
        { isMatch := false, score := 0,
          feedback := [Feedback.invalidPoseData],
          suggestions := [Suggestion.ensureValidLandmarkData] }) ∧
    (∀ (current : List JSLandmark) (d : DifficultyLevel),
      comparePoses (JSArg.arr []) (JSArg.arr current) d =
        { isMatch := false, score := 0,
          feedback := [Feedback.missingPoseLandmarks],
          suggestions := [Suggestion.ensurePoseDetected] }) ∧
    (∀ (recorded : List JSLandmark) (d : DifficultyLevel),
      comparePoses (JSArg.arr recorded) (JSArg.arr []) d =
        { isMatch := false, score := 0,
          feedback := [Feedback.missingPoseLandmarks],
          suggestions := [Suggestion.ensurePoseDetected] }) := by
  refine ⟨?_, ?_, ?_, ?_⟩
  · intro current d
    cases current <;> rfl
  · intro recorded d
    rfl
  · intro current d
    simp [comparePoses]
  · intro recorded d
    simp [comparePoses]

/-- C8: on the five-frame score list `[1, 0.5, 0.5, 1, 1]` the middle
third `[0.5, 0.5]` has mean 0.5 < 0.6, so by the claim the middle-phase
coaching line must be appended; the code instead divides the middle
slice's sum (1.0) by `floor(5/3) = 1` — the length of the *first* slice
— obtains 1.0, and appends nothing at all. -/
theorem claim8_middle_phase_divisor :
    analyzeMovementPhases [(1 : ℝ), 1/2, 1/2, 1, 1] = [] ∧
    (([(1 : ℝ), 1/2, 1/2, 1, 1].drop 1).take 2).sum / 2 < 6/10 := by
  constructor
  · unfold analyzeMovementPhases
    rw [if_neg (by norm_num)]
    norm_num [List.take, List.drop]
  · norm_num [List.take, List.drop]

/-- Clamping facts for `max 0 (min 1 x)` over the rationals. -/
lemma clamp01_facts (x : ℚ) :
    0 ≤ max 0 (min 1 x) ∧ max 0 (min 1 x) ≤ 1 ∧
    (x < 0 → max 0 (min 1 x) = 0) ∧ (1 < x → max 0 (min 1 x) = 1) ∧
    (0 ≤ x → x ≤ 1 → max 0 (min 1 x) = x) := by
  refine ⟨le_max_left 0 _, max_le (by norm_num) (min_le_left 1 x), ?_, ?_, ?_⟩
  · intro h
    rw [min_eq_right (le_of_lt (lt_of_lt_of_le h (by norm_num)))]
    exact max_eq_left (le_of_lt h)
  · intro h
    rw [min_eq_left (le_of_lt h)]
    exact max_eq_right (by norm_num)
  · intro h0 h1
    rw [min_eq_right h1]
    exact max_eq_right h0

/-- C9: normalization clamps `x` and `y` into [0, 1] (saturating, never
rejecting), passes `z` through unchanged, clamps `visibility` when
present, and leaves it absent when absent; `normalizePoseData` is the
same transform applied landmark-wise. -/
theorem claim9_normalization :
    (∀ L : List TSLandmark, normalizePoseData L = L.map normalizeLandmark) ∧
    (∀ l : TSLandmark,
      0 ≤ (normalizeLandmark l).x ∧ (normalizeLandmark l).x ≤ 1 ∧
      (l.x < 0 → (normalizeLandmark l).x = 0) ∧
      (1 < l.x → (normalizeLandmark l).x = 1) ∧
      (0 ≤ l.x → l.x ≤ 1 → (normalizeLandmark l).x = l.x) ∧
      0 ≤ (normalizeLandmark l).y ∧ (normalizeLandmark l).y ≤ 1 ∧
      (l.y < 0 → (normalizeLandmark l).y = 0) ∧
      (1 < l.y → (normalizeLandmark l).y = 1) ∧
      (0 ≤ l.y → l.y ≤ 1 → (normalizeLandmark l).y = l.y) ∧
      (normalizeLandmark l).z = l.z ∧
      ((normalizeLandmark l).visibility = none ↔ l.visibility = none) ∧
      (∀ v, l.visibility = some v →
        (normalizeLandmark l).visibility = some (max 0 (min 1 v)) ∧
        0 ≤ max 0 (min 1 v) ∧ max 0 (min 1 v) ≤ 1 ∧
        (0 ≤ v → v ≤ 1 → max 0 (min 1 v) = v))) := by
  constructor
  · intro L
    rfl
  · intro l
    obtain ⟨hx0, hx1, hxneg, hxbig, hxin⟩ := clamp01_facts l.x
    obtain ⟨hy0, hy1, hyneg, hybig, hyin⟩ := clamp01_facts l.y
    refine ⟨hx0, hx1, hxneg, hxbig, hxin, hy0, hy1, hyneg, hybig, hyin,
      rfl, ?_, ?_⟩
    · cases hv : l.visibility <;> simp [normalizeLandmark, hv]
    · intro v hv
      obtain ⟨hv0, hv1, _, _, hvin⟩ := clamp01_facts v
      exact ⟨by simp [normalizeLandmark, hv], hv0, hv1, hvin⟩

/-- Witness for C9 at the landmark `(x, y, z, visibility) = (2, -1, 5,
some 3)`: `x` saturates to 1, `y` to 0, `z` passes through. -/
theorem claim9_normalization_witness :
    (normalizeLandmark ⟨2, -1, 5, some 3⟩).x = 1 ∧
    (normalizeLandmark ⟨2, -1, 5, some 3⟩).y = 0 ∧
    (normalizeLandmark ⟨2, -1, 5, some 3⟩).z = 5 := by
  have h := claim9_normalization.2 ⟨2, -1, 5, some 3⟩
  obtain ⟨_, _, _, hxbig, _, _, _, hyneg, _, _, hz, _, _⟩ := h
  exact ⟨hxbig (by norm_num), hyneg (by norm_num), hz⟩

/-- Filtering with a stronger predicate keeps no more elements. -/
lemma filter_length_mono {α : Type} (l : List α) (p q : α → Bool)
    (h : ∀ a, p a = true → q a = true) :
    (l.filter p).length ≤ (l.filter q).length := by
  induction l with
  | nil => simp
  | cons a t ih =>
    by_cases hp : p a = true
    · rw [List.filter_cons_of_pos hp, List.filter_cons_of_pos (h a hp)]
      simpa using ih
    · rw [List.filter_cons_of_neg (by simpa using hp)]
      by_cases hq : q a = true
      · rw [List.filter_cons_of_pos hq]
        exact le_trans ih (by simp)
      · rw [List.filter_cons_of_neg (by simpa using hq)]
        exact ih

/-- C10: the low-visibility count only counts key indices at which a
landmark actually exists, and on a single-landmark input the
too-many-low-visibility issue is never raised, however short the list
is. -/
theorem claim10_low_visibility_existing_only :
    (∀ landmarks : List TSLandmark,
      (lowVisibilityLandmarks landmarks).length ≤
        (qualityKeyIndices.filter (fun i => decide (i < landmarks.length))).length) ∧
    (∀ l : TSLandmark,
      "Too many key landmarks have low visibility" ∉
        (validatePoseQuality [l]).2) := by
  constructor
  · intro landmarks
    apply filter_length_mono
    intro a ha
    cases h : landmarks[a]? with
    | none => rw [h] at ha; simp at ha
    | some lm =>
      have : a < landmarks.length := by
        by_contra hge
        rw [List.getElem?_eq_none (by omega)] at h
        exact Option.noConfusion h
      simpa using this
  · intro l
    unfold validatePoseQuality
    rw [if_neg (by norm_num)]
    have hlow : (lowVisibilityLandmarks [l]).length ≤ 1 := by
      unfold lowVisibilityLandmarks qualityKeyIndices
      cases hb : isLowVisibility l <;>
        simp [List.filter, hb]
    have hvis :
        (if 2 < (lowVisibilityLandmarks [l]).length then
          ["Too many key landmarks have low visibility"] else ([] : List String)) = [] := by
      rw [if_neg (by omega)]
    dsimp only
    rw [hvis]
    have hcount : ([l] : List TSLandmark).length ≠ 33 := by norm_num
    rw [if_pos hcount]
    by_cases hc : 0 < (([l] : List TSLandmark).filter (fun landmark =>
        decide (landmark.x < 0) || decide (1 < landmark.x) ||
        decide (landmark.y < 0) || decide (1 < landmark.y))).length
    · rw [if_pos hc]
      intro hmem
      simp only [List.append_nil, List.nil_append, List.mem_append,
        List.mem_singleton] at hmem
      rcases hmem with h1 | h2
      · simp only [List.length_singleton] at h1
        exact absurd h1 (by decide)
      · exact absurd h2 (by decide)
    · rw [if_neg hc]
      intro hmem
      simp only [List.append_nil, List.nil_append, List.mem_append,
        List.mem_singleton] at hmem
      simp only [List.length_singleton] at hmem
      exact absurd hmem (by decide)
